import Mathlib

/-!
Verification of the Capturehouse landing page (src/App.tsx).

The page is a React single-page site.  The stateful parts are embedded as
pure Lean functions and explicit state machines:

* `FormData`, `handleChange`, `handleSubmit` embed the `ContactForm`
  component (App.tsx lines 886-995);
* `encodeURIComponent` embeds the JavaScript builtin used by
  `handleSubmit` (percent-encoding of the UTF-8 bytes of every character
  outside the unreserved set `A-Z a-z 0-9 - _ . ! ~ * ' ( )`, with
  uppercase hexadecimal digits);
* `RevealState` / `revealStep` embed the `RevealOnScroll` component
  (lines 65-92): an intersection observer with threshold 0.1 that sets
  the visibility flag on the first intersecting entry and then
  disconnects;
* `PageState` / `step` embed the event handlers of the page: the scroll
  listener and `scrollToSection` of `Navbar` (lines 119-213), the
  hamburger toggle, the hero and methodology scroll buttons (optional
  chaining on `getElementById`), the `FAQItem` toggles (lines 822-847)
  and the `ContactForm` handlers;
* `cursorSetup`, `moveCursor`, `addHoverState`, `removeHoverState` embed
  the `CustomCursor` component (lines 5-63) and the DOM `classList`
  operations it performs;
* `Effect` records every side effect any handler performs on the outside
  world; constructors for network requests and persistent-storage writes
  are included so that their absence is a statement, not a tautology.
-/

namespace Capturehouse

/-- State of the `ContactForm` component: the `useState` record with the
four string fields `name`, `instagram`, `niche`, `objective`
(App.tsx lines 887-892), all initialised to the empty string. -/
structure FormData where
  name : String
  instagram : String
  niche : String
  objective : String
deriving DecidableEq, Repr

/-- Initial `ContactForm` state (App.tsx lines 887-892). -/
def initialFormData : FormData :=
  { name := "", instagram := "", niche := "", objective := "" }

/-- `ContactForm.handleChange` (App.tsx lines 894-897):
`setFormData(prev => ({ ...prev, [name]: value }))`, restricted to the four
tracked fields (a computed key outside the four would not change any of
them). -/
def handleChange (fieldName : String) (value : String) (fd : FormData) : FormData :=
  { name := if fieldName = "name" then value else fd.name
    instagram := if fieldName = "instagram" then value else fd.instagram
    niche := if fieldName = "niche" then value else fd.niche
    objective := if fieldName = "objective" then value else fd.objective }

/-- Characters left unescaped by JavaScript `encodeURIComponent`:
letters, digits, and `- _ . ! ~ * ' ( )` (given here by code point:
45 95 46 33 126 42 39 40 41). -/
def isUnreservedURI (c : Char) : Bool :=
  (65 ≤ c.toNat && c.toNat ≤ 90) || (97 ≤ c.toNat && c.toNat ≤ 122) ||
  (48 ≤ c.toNat && c.toNat ≤ 57) ||
  c.toNat = 45 || c.toNat = 95 || c.toNat = 46 || c.toNat = 33 ||
  c.toNat = 126 || c.toNat = 42 || c.toNat = 39 || c.toNat = 40 || c.toNat = 41

/-- UTF-8 byte sequence of a Unicode scalar value. -/
def utf8Bytes (n : Nat) : List Nat :=
  if n < 128 then [n]
  else if n < 2048 then [192 + n / 64, 128 + n % 64]
  else if n < 65536 then [224 + n / 4096, 128 + (n / 64) % 64, 128 + n % 64]
  else [240 + n / 262144, 128 + (n / 4096) % 64, 128 + (n / 64) % 64, 128 + n % 64]

/-- Uppercase hexadecimal digit, as produced by `encodeURIComponent`. -/
def hexDigit (n : Nat) : Char :=
  if n < 10 then Char.ofNat (48 + n) else Char.ofNat (55 + n)

/-- Percent-escape of one byte: `%` followed by two uppercase hex digits. -/
def percentByte (b : Nat) : String :=
  String.mk [Char.ofNat 37, hexDigit (b / 16), hexDigit (b % 16)]

/-- Encoding of one character: kept verbatim when unreserved, otherwise
each UTF-8 byte is percent-escaped. -/
def encodeChar (c : Char) : String :=
  if isUnreservedURI c then String.singleton c
  else String.join ((utf8Bytes c.toNat).map percentByte)

/-- JavaScript `encodeURIComponent`, as used in `handleSubmit`
(App.tsx line 902). -/
def encodeURIComponent (s : String) : String :=
  String.join (s.data.map encodeChar)

/-- The WhatsApp phone number constant of `handleSubmit`
(App.tsx line 901). -/
def phoneNumber : String := "5519999592852"

/-- The message built by `handleSubmit` (App.tsx lines 902-908): the fixed
header followed by the four field values after the labels Nome, Instagram,
Atuação and Objetivo, mirroring the source's string concatenation. -/
def contactMessage (fd : FormData) : String :=
  "*Nova Aplicação via Site Capturehouse*\n\n" ++
  ("*Nome:* " ++ fd.name ++ "\n") ++
  ("*Instagram:* " ++ fd.instagram ++ "\n") ++
  ("*Atuação:* " ++ fd.niche ++ "\n") ++
  ("*Objetivo:* " ++ fd.objective)

/-- Side effects a handler can perform on the world outside component
state.  `networkRequest` and `storageWrite` never occur in the source;
they are present so that the frame claims about their absence are
non-trivial. -/
inductive Effect where
  | preventDefault
  | windowOpen (url : String) (target : String)
  | scrollIntoView (elementId : String)
  | windowScrollTo (top : Nat)
  | setStyle (prop : String) (px : Nat)
  | animateMove (x : Nat) (y : Nat)
  | classAdd (token : String)
  | classRemove (token : String)
  | addListener (eventName : String)
  | networkRequest (url : String)
  | storageWrite (key : String) (value : String)
deriving DecidableEq, Repr

/-- `ContactForm.handleSubmit` (App.tsx lines 899-910): prevents the
default form action, then opens the WhatsApp deep link with the encoded
message in a new tab.  It does not touch the form state, so the state
component of the result is the input state. -/
def handleSubmit (fd : FormData) : FormData × List Effect :=
  (fd,
   [Effect.preventDefault,
    Effect.windowOpen
      ("https://wa.me/" ++ phoneNumber ++ "?text=" ++
        encodeURIComponent (contactMessage fd)) "_blank"])

/-- Recogniser for the `window.open` effect. -/
def isOpenEffect : Effect → Bool
  | Effect.windowOpen _ _ => true
  | _ => false

/-- Effects that are a network request (none are ever emitted). -/
def isNetworkRequest : Effect → Bool
  | Effect.networkRequest _ => true
  | _ => false

/-- Effects that write to persistent storage (none are ever emitted). -/
def isStorageWrite : Effect → Bool
  | Effect.storageWrite _ _ => true
  | _ => false

/-- Effects visible outside the page itself: opening a URL, a network
request, or a persistent-storage write.  Scrolling, style, class and
listener effects stay inside the page. -/
def isExternallyVisible : Effect → Bool
  | Effect.windowOpen _ _ => true
  | Effect.networkRequest _ => true
  | Effect.storageWrite _ _ => true
  | _ => false

/-- Toggles one of the four `FAQItem` open flags: each item holds its own
`isOpen` boolean and `onClick={() => setIsOpen(!isOpen)}` negates it
(App.tsx lines 823, 829). -/
def faqToggleAt (i : Fin 4) (f : Fin 4 → Bool) : Fin 4 → Bool :=
  fun j => if j = i then !(f j) else f j

/-- Combined mutable state of the page's stateful components:
`Navbar`'s `scrolled` and `mobileMenuOpen` booleans (lines 120-121), the
four `FAQItem` `isOpen` booleans (line 823), and `ContactForm`'s
`formData` record (lines 887-892). -/
structure PageState where
  navScrolled : Bool
  mobileMenuOpen : Bool
  faqOpen : Fin 4 → Bool
  formData : FormData

/-- Initial page state: every boolean `useState(false)`, the form fields
empty. -/
def pageInit : PageState :=
  { navScrolled := false
    mobileMenuOpen := false
    faqOpen := fun _ => false
    formData := initialFormData }

/-- User-interaction and platform events handled by the page.  The
`targetExists` flag of `navClick` and `scrollButton` records whether
`document.getElementById` found the target element. -/
inductive Event where
  | scroll (scrollY : Nat)
  | logoClick
  | navClick (targetId : String) (targetExists : Bool)
  | hamburgerClick
  | scrollButton (targetId : String) (targetExists : Bool)
  | faqClick (i : Fin 4)
  | formChange (fieldName : String) (value : String)
  | formSubmit

/-- One step of the page: the event handlers of App.tsx.
* `scroll`: `handleScroll = () => setScrolled(window.scrollY > 20)`
  (line 124);
* `logoClick`: `window.scrollTo({ top: 0, behavior: 'smooth' })`
  (line 155);
* `navClick`: `Navbar.scrollToSection` (lines 129-135) — when the element
  exists it scrolls to it and closes the mobile menu, otherwise nothing
  happens;
* `hamburgerClick`: `setMobileMenuOpen(!mobileMenuOpen)` (line 182);
* `scrollButton`: the hero and methodology buttons
  `document.getElementById(id)?.scrollIntoView(...)` (lines 256, 262,
  743) — optional chaining, nothing on a missing element;
* `faqClick`: the `FAQItem` toggle (line 829);
* `formChange` / `formSubmit`: the `ContactForm` handlers. -/
def step (ev : Event) (s : PageState) : PageState × List Effect :=
  match ev with
  | Event.scroll y => ({ s with navScrolled := decide (y > 20) }, [])
  | Event.logoClick => (s, [Effect.windowScrollTo 0])
  | Event.navClick targetId targetExists =>
      if targetExists then
        ({ s with mobileMenuOpen := false }, [Effect.scrollIntoView targetId])
      else (s, [])
  | Event.hamburgerClick => ({ s with mobileMenuOpen := !s.mobileMenuOpen }, [])
  | Event.scrollButton targetId targetExists =>
      if targetExists then (s, [Effect.scrollIntoView targetId]) else (s, [])
  | Event.faqClick i => ({ s with faqOpen := faqToggleAt i s.faqOpen }, [])
  | Event.formChange fieldName value =>
      ({ s with formData := handleChange fieldName value s.formData }, [])
  | Event.formSubmit =>
      let r := handleSubmit s.formData
      ({ s with formData := r.1 }, r.2)

/-! ### RevealOnScroll (App.tsx lines 65-92) -/

/-- State of one `RevealOnScroll` instance: the `isVisible` flag and
whether its intersection observer is still connected. -/
structure RevealState where
  isVisible : Bool
  observerActive : Bool
deriving DecidableEq, Repr

/-- Initial `RevealOnScroll` state: `useState(false)` and a freshly
connected observer (lines 66, 70-79). -/
def revealInit : RevealState := { isVisible := false, observerActive := true }

/-- An intersection-observer callback entry: only its `isIntersecting`
flag is consulted (line 72). -/
structure ObserverEntry where
  isIntersecting : Bool
deriving DecidableEq, Repr

/-- Configuration passed to the `IntersectionObserver`
(`{ threshold: 0.1 }`, line 77). -/
structure ObserverConfig where
  threshold : ℚ
deriving DecidableEq, Repr

/-- The observer configuration used by `RevealOnScroll`. -/
def revealObserverConfig : ObserverConfig := { threshold := 1 / 10 }

/-- One observer callback of `RevealOnScroll` (lines 71-76): while the
observer is connected, an intersecting entry sets the flag and
disconnects the observer; anything else changes nothing. -/
def revealStep (s : RevealState) (e : ObserverEntry) : RevealState :=
  if s.observerActive && e.isIntersecting then
    { isVisible := true, observerActive := false }
  else s

/-- The `RevealOnScroll` state after a whole sequence of observer
entries, starting from the initial state. -/
def revealRun (es : List ObserverEntry) : RevealState :=
  es.foldl revealStep revealInit

/-! ### CustomCursor (App.tsx lines 5-63) -/

/-- The setup effect of `CustomCursor`: when `.cursor-dot` or
`.cursor-outline` is missing (`if (!dot || !outline) return;`, line 11)
or the device is a touch device (line 16), it registers nothing;
otherwise it registers the mousemove listener and the hover
enter/leave listeners (lines 45-51). -/
def cursorSetup (dotExists outlineExists touchDevice : Bool) : List Effect :=
  if !dotExists || !outlineExists then []
  else if touchDevice then []
  else
    [Effect.addListener "mousemove",
     Effect.addListener "mouseenter",
     Effect.addListener "mouseleave"]

/-- The `moveCursor` handler (lines 18-35): sets the dot's `left`/`top`
styles to the mouse position and animates the outline towards it. -/
def moveCursor (x y : Nat) : List Effect :=
  [Effect.setStyle "left" x, Effect.setStyle "top" y, Effect.animateMove x y]

/-- DOM `classList.add`: appends the token unless it is already present. -/
def classListAdd (token : String) (classes : List String) : List String :=
  if token ∈ classes then classes else classes ++ [token]

/-- DOM `classList.remove`: removes every occurrence of the token. -/
def classListRemove (token : String) (classes : List String) : List String :=
  classes.filter (fun c => c ≠ token)

/-- `addHoverState` (lines 37-39): `outline.classList.add('hovered')`. -/
def addHoverState (classes : List String) : List String :=
  classListAdd "hovered" classes

/-- `removeHoverState` (lines 41-43):
`outline.classList.remove('hovered')`. -/
def removeHoverState (classes : List String) : List String :=
  classListRemove "hovered" classes

/-- Effects of the hover-enter handler on the outline element. -/
def cursorHoverEnter : List Effect := [Effect.classAdd "hovered"]

/-- Effects of the hover-leave handler on the outline element. -/
def cursorHoverLeave : List Effect := [Effect.classRemove "hovered"]

/-! ### Page layout (App.tsx lines 1071-1092) -/

/-- The top-level components of the page, one tag per child of `App`. -/
inductive PageSection where
  | customCursor | navbar | hero | marquee | services | whyChooseUs
  | results | partners | portfolio | team | feedbacks | methodology
  | faq | contactForm | footer | whatsappButton
deriving DecidableEq, BEq, Repr

/-- The children of `App` in source order (lines 1074-1089). -/
def appSections : List PageSection :=
  [PageSection.customCursor, PageSection.navbar, PageSection.hero,
   PageSection.marquee, PageSection.services, PageSection.whyChooseUs,
   PageSection.results, PageSection.partners, PageSection.portfolio,
   PageSection.team, PageSection.feedbacks, PageSection.methodology,
   PageSection.faq, PageSection.contactForm, PageSection.footer,
   PageSection.whatsappButton]

/-! ## Helper lemmas -/

/-- Toggling one FAQ item twice restores the flag assignment. -/
lemma faqToggleAt_involutive (i : Fin 4) (f : Fin 4 → Bool) :
    faqToggleAt i (faqToggleAt i f) = f := by
  funext j
  by_cases h : j = i <;> simp [faqToggleAt, h]

/-- Invariant run lemma for `RevealOnScroll`: from any state in which the
observer is connected exactly while the flag is unset, the flag after a
sequence of entries is set exactly when it was already set or some entry
intersected. -/
lemma revealRun_aux (es : List ObserverEntry) (s : RevealState)
    (h : s.observerActive = !s.isVisible) :
    (es.foldl revealStep s).isVisible =
      (s.isVisible || es.any (fun e => e.isIntersecting)) := by
  induction es generalizing s with
  | nil => simp
  | cons e es ih =>
    simp only [List.foldl_cons, List.any_cons]
    by_cases hv : s.isVisible = true
    · have hstep : revealStep s e = s := by simp [revealStep, h, hv]
      rw [hstep, ih s h]; simp [hv]
    · simp only [Bool.not_eq_true] at hv
      by_cases hi : e.isIntersecting = true
      · have hstep : revealStep s e =
            { isVisible := true, observerActive := false } := by
          simp [revealStep, h, hv, hi]
        rw [hstep, ih _ rfl]; simp [hv, hi]
      · simp only [Bool.not_eq_true] at hi
        have hstep : revealStep s e = s := by simp [revealStep, hi]
        rw [hstep, ih s h]; simp [hv, hi]

/-! ## Claims -/

/-- C1: for every form state, submitting the contact form opens exactly
one outbound URL, equal to `https://wa.me/5519999592852?text=` followed
by the `encodeURIComponent` encoding of the fixed message template with
the four field values interpolated after the labels Nome, Instagram,
Atuação and Objetivo, in that order. -/
theorem claim_C1_submit_opens_single_wa_url (fd : FormData) :
    (handleSubmit fd).2.filter isOpenEffect =
      [Effect.windowOpen
        ("https://wa.me/5519999592852?text=" ++
          encodeURIComponent
            ("*Nova Aplicação via Site Capturehouse*\n\n" ++
             "*Nome:* " ++ fd.name ++ "\n" ++
             "*Instagram:* " ++ fd.instagram ++ "\n" ++
             "*Atuação:* " ++ fd.niche ++ "\n" ++
             "*Objetivo:* " ++ fd.objective)) "_blank"] := by
  have hmsg : contactMessage fd =
      "*Nova Aplicação via Site Capturehouse*\n\n" ++
      "*Nome:* " ++ fd.name ++ "\n" ++
      "*Instagram:* " ++ fd.instagram ++ "\n" ++
      "*Atuação:* " ++ fd.niche ++ "\n" ++
      "*Objetivo:* " ++ fd.objective := by
    simp only [contactMessage, String.append_assoc]
  have hfilter : (handleSubmit fd).2.filter isOpenEffect =
      [Effect.windowOpen
        ("https://wa.me/5519999592852?text=" ++
          encodeURIComponent (contactMessage fd)) "_blank"] := rfl
  rw [hfilter, hmsg]

/-- C2: the `RevealOnScroll` visibility flag starts false, becomes true
on the first intersecting observer entry (observer threshold 0.1), the
observer is then disconnected, and the flag never returns to false: over
any entry sequence it is set exactly when some entry intersected. -/
theorem claim_C2_reveal_visibility_latch :
    revealInit.isVisible = false ∧
    revealObserverConfig.threshold = 1 / 10 ∧
    (∀ e : ObserverEntry, e.isIntersecting = true →
      revealStep revealInit e =
        { isVisible := true, observerActive := false }) ∧
    (∀ (s : RevealState) (e : ObserverEntry), s.isVisible = true →
      (revealStep s e).isVisible = true) ∧
    (∀ es : List ObserverEntry,
      (revealRun es).isVisible = es.any (fun e => e.isIntersecting)) := by
  refine ⟨rfl, rfl, ?_, ?_, ?_⟩
  · intro e he; simp [revealStep, revealInit, he]
  · intro s e hs; unfold revealStep; split <;> simp [hs]
  · intro es
    have h := revealRun_aux es revealInit rfl
    simpa [revealRun, revealInit] using h

/-- Witness for C2 at concrete inputs: an intersecting entry on the
initial state sets the flag and disconnects, and a later entry leaves a
set flag set. -/
theorem claim_C2_reveal_visibility_latch_witness :
    revealStep revealInit { isIntersecting := true } =
      { isVisible := true, observerActive := false } ∧
    (revealStep { isVisible := true, observerActive := false }
      { isIntersecting := false }).isVisible = true :=
  ⟨claim_C2_reveal_visibility_latch.2.2.1 { isIntersecting := true } rfl,
   claim_C2_reveal_visibility_latch.2.2.2.1
     { isVisible := true, observerActive := false }
     { isIntersecting := false } rfl⟩

/-- C3: every DOM lookup guard is a no-op on a missing element:
`scrollToSection` leaves the whole state (in particular
`mobileMenuOpen`) unchanged and emits no effect, the hero and
methodology scroll buttons emit no effect, and the `CustomCursor` setup
registers nothing when the dot or the outline element is missing. -/
theorem claim_C3_missing_element_noop :
    (∀ (s : PageState) (targetId : String),
      step (Event.navClick targetId false) s = (s, []) ∧
      (step (Event.navClick targetId false) s).1.mobileMenuOpen =
        s.mobileMenuOpen) ∧
    (∀ (s : PageState) (targetId : String),
      step (Event.scrollButton targetId false) s = (s, [])) ∧
    (∀ outlineExists touchDevice : Bool,
      cursorSetup false outlineExists touchDevice = []) ∧
    (∀ dotExists touchDevice : Bool,
      cursorSetup dotExists false touchDevice = []) := by
  refine ⟨fun s targetId => ⟨rfl, rfl⟩, fun s targetId => rfl,
    fun o t => rfl, fun d t => ?_⟩
  simp [cursorSetup]

/-- C4 counterexample: `ContactForm`'s mutable state is not a boolean
toggle — three pairwise distinct form states are reachable from the
initial state by single `handleChange` transitions, which no
two-valued boolean state could accommodate. -/
theorem claim_C4_state_not_boolean_counterexample :
    (step (Event.formChange "name" "Ana") pageInit).1.formData ≠
      pageInit.formData ∧
    (step (Event.formChange "name" "Bruno") pageInit).1.formData ≠
      pageInit.formData ∧
    (step (Event.formChange "name" "Ana") pageInit).1.formData ≠
      (step (Event.formChange "name" "Bruno") pageInit).1.formData := by
  decide

/-- C4 (amended): the state of `RevealOnScroll`, `Navbar` and `FAQItem`
is boolean and every transition sets it to a value determined by the
event or negates it, while `ContactForm`'s state is a record of four
strings updated fieldwise by `handleChange`. -/
theorem claim_C4_boolean_toggles_amended :
    (∀ (s : PageState) (y : Nat),
      (step (Event.scroll y) s).1.navScrolled = decide (y > 20)) ∧
    (∀ s : PageState,
      (step Event.hamburgerClick s).1.mobileMenuOpen = !s.mobileMenuOpen) ∧
    (∀ (s : PageState) (targetId : String),
      (step (Event.navClick targetId true) s).1.mobileMenuOpen = false) ∧
    (∀ (s : PageState) (i : Fin 4),
      (step (Event.faqClick i) s).1.faqOpen i = !(s.faqOpen i)) ∧
    (∀ (s : RevealState) (e : ObserverEntry),
      (revealStep s e).isVisible =
        (s.isVisible || (s.observerActive && e.isIntersecting))) ∧
    (∀ (s : PageState) (fieldName value : String),
      (step (Event.formChange fieldName value) s).1.formData =
        handleChange fieldName value s.formData) := by
  refine ⟨fun s y => rfl, fun s => rfl, fun s targetId => rfl,
    fun s i => ?_, fun s e => ?_, fun s fieldName value => rfl⟩
  · simp [step, faqToggleAt]
  · unfold revealStep; split <;> rename_i h <;> simp_all

/-- C5: the page renders the hero before the services list, the services
list before the testimonials (`Feedbacks`), the testimonials before the
FAQ accordion, and the FAQ accordion before the contact form. -/
theorem claim_C5_section_rendering_order :
    appSections.indexOf PageSection.hero <
      appSections.indexOf PageSection.services ∧
    appSections.indexOf PageSection.services <
      appSections.indexOf PageSection.feedbacks ∧
    appSections.indexOf PageSection.feedbacks <
      appSections.indexOf PageSection.faq ∧
    appSections.indexOf PageSection.faq <
      appSections.indexOf PageSection.contactForm := by
  decide

/-- C6: on any starting class list, `addHoverState` followed by
`removeHoverState` yields the start with `hovered` removed (and in
particular without `hovered`), and `addHoverState` is idempotent. -/
theorem claim_C6_hover_class_algebra (classes : List String) :
    removeHoverState (addHoverState classes) =
      classListRemove "hovered" classes ∧
    "hovered" ∉ removeHoverState (addHoverState classes) ∧
    addHoverState (addHoverState classes) = addHoverState classes := by
  refine ⟨?_, ?_, ?_⟩
  · unfold removeHoverState addHoverState classListAdd
    by_cases h : "hovered" ∈ classes
    · simp [h]
    · simp [h, classListRemove, List.filter_append]
  · simp [removeHoverState, classListRemove, List.mem_filter]
  · unfold addHoverState classListAdd
    by_cases h : "hovered" ∈ classes <;> simp [h]

/-- C7: no handler of the page emits a network request or a
persistent-storage write, and every externally visible effect of any
event is a `window.open` of a URL in a new tab; the cursor handlers emit
only page-internal effects. -/
theorem claim_C7_effect_frame :
    (∀ (ev : Event) (s : PageState), ∀ e ∈ (step ev s).2,
      isNetworkRequest e = false ∧ isStorageWrite e = false ∧
      (isExternallyVisible e = true →
        ∃ url, e = Effect.windowOpen url "_blank")) ∧
    (∀ x y : Nat, ∀ e ∈ moveCursor x y, isExternallyVisible e = false) ∧
    (∀ d o t : Bool, ∀ e ∈ cursorSetup d o t,
      isExternallyVisible e = false) ∧
    (∀ e ∈ cursorHoverEnter, isExternallyVisible e = false) ∧
    (∀ e ∈ cursorHoverLeave, isExternallyVisible e = false) := by
  refine ⟨?_, ?_, ?_, ?_, ?_⟩
  · intro ev s e he
    cases ev with
    | scroll y => simp [step] at he
    | logoClick =>
        simp [step] at he
        subst he; exact ⟨rfl, rfl, by simp [isExternallyVisible]⟩
    | navClick targetId targetExists =>
        cases targetExists <;> simp [step] at he
        subst he; exact ⟨rfl, rfl, by simp [isExternallyVisible]⟩
    | hamburgerClick => simp [step] at he
    | scrollButton targetId targetExists =>
        cases targetExists <;> simp [step] at he
        subst he; exact ⟨rfl, rfl, by simp [isExternallyVisible]⟩
    | faqClick i => simp [step] at he
    | formChange fieldName value => simp [step] at he
    | formSubmit =>
        simp [step, handleSubmit] at he
        rcases he with he | he <;> subst he
        · exact ⟨rfl, rfl, by simp [isExternallyVisible]⟩
        · exact ⟨rfl, rfl, fun _ => ⟨_, rfl⟩⟩
  · intro x y e he
    simp [moveCursor] at he
    rcases he with he | he | he <;> subst he <;> rfl
  · intro d o t e he
    cases d <;> cases o <;> cases t <;> simp [cursorSetup] at he
    rcases he with he | he | he <;> subst he <;> rfl
  · intro e he; simp [cursorHoverEnter] at he; subst he; rfl
  · intro e he; simp [cursorHoverLeave] at he; subst he; rfl

/-- Witness for C7 at concrete inputs: the form-submit effects contain
`preventDefault`, which is neither a network request nor a storage
write, and the first cursor-move effect is not externally visible. -/
theorem claim_C7_effect_frame_witness :
    Effect.preventDefault ∈ (step Event.formSubmit pageInit).2 ∧
    isNetworkRequest Effect.preventDefault = false ∧
    isStorageWrite Effect.preventDefault = false ∧
    isExternallyVisible (Effect.setStyle "left" 0) = false :=
  have hmem : Effect.preventDefault ∈ (step Event.formSubmit pageInit).2 :=
    List.mem_cons_self _ _
  ⟨hmem,
   (claim_C7_effect_frame.1 Event.formSubmit pageInit
      Effect.preventDefault hmem).1,
   (claim_C7_effect_frame.1 Event.formSubmit pageInit
      Effect.preventDefault hmem).2.1,
   claim_C7_effect_frame.2.1 0 0 (Effect.setStyle "left" 0)
     (List.mem_cons_self _ _)⟩

/-- C8: `handleChange` with each of the four field names sets exactly
that field to the new value and leaves the other three fields
unchanged. -/
theorem claim_C8_handleChange_updates_one_field (fd : FormData)
    (value : String) :
    handleChange "name" value fd = { fd with name := value } ∧
    handleChange "instagram" value fd = { fd with instagram := value } ∧
    handleChange "niche" value fd = { fd with niche := value } ∧
    handleChange "objective" value fd = { fd with objective := value } := by
  refine ⟨?_, ?_, ?_, ?_⟩ <;> simp [handleChange]

/-- C9: submitting the contact form leaves the form state (and the whole
page state) unchanged. -/
theorem claim_C9_submit_preserves_form (s : PageState) :
    (step Event.formSubmit s).1 = s ∧
    (handleSubmit s.formData).1 = s.formData :=
  ⟨rfl, rfl⟩

/-- C10: one click on a FAQ item negates its own flag, two consecutive
clicks restore the entire page state, and a click on item `i` never
changes the flag of a different item `j`. -/
theorem claim_C10_faq_involution_independent (s : PageState)
    (i j : Fin 4) :
    (step (Event.faqClick i) s).1.faqOpen i = !(s.faqOpen i) ∧
    (step (Event.faqClick i) ((step (Event.faqClick i) s).1)).1 = s ∧
    (j ≠ i → (step (Event.faqClick i) s).1.faqOpen j = s.faqOpen j) := by
  refine ⟨?_, ?_, ?_⟩
  · simp [step, faqToggleAt]
  · show ({ s with
        faqOpen := faqToggleAt i (faqToggleAt i s.faqOpen) } : PageState) = s
    rw [faqToggleAt_involutive]
  · intro h; simp [step, faqToggleAt, h]

/-- Witness for C10 at a concrete input: clicking item 0 on the initial
state leaves item 1 closed. -/
theorem claim_C10_faq_involution_independent_witness :
    (step (Event.faqClick 0) pageInit).1.faqOpen 1 = pageInit.faqOpen 1 :=
  (claim_C10_faq_involution_independent pageInit 0 1).2.2 (by decide)

end Capturehouse
